import Mathlib

/-!
Verification of the reconciliation pipeline in `objectstoreaccess.py`
(class `ObjectStore2FN4` and the `__main__` poll loop).

The Python source is shallowly embedded: Python strings become `String`,
Python lists become `List`, database rows become structures, the HTTP
client and the object-store client become explicit function parameters,
and exceptions become `Except`.  Python-specific evaluation facts (such
as `==` between values of different builtin types) are embedded as their
own definitions with the value Python gives them.
-/

namespace GpasFasta

/-! ## Python string helpers

`splitOnChar` embeds Python `str.split(sep)` for a one-character
separator, and `rstripChars` embeds the trailing-whitespace stripping
that line-based file iteration performs. -/

/-- Embeds Python `str.split(sep)` (one-character separator): the list of
maximal chunks between occurrences of `sep`; always nonempty. -/
def splitOnChar (sep : Char) : List Char → List (List Char)
  | [] => [[]]
  | c :: cs =>
    let r := splitOnChar sep cs
    if c = sep then [] :: r
    else
      match r with
      | [] => [[c]]
      | h :: t => (c :: h) :: t

/-- Removes trailing whitespace (space, tab, carriage return) from a line. -/
def rstripChars (l : List Char) : List Char :=
  (l.reverse.dropWhile (fun c => c == ' ' || c == '\t' || c == '\r')).reverse

/-! ## Item Identity Extractor (`filename2fn4id`, lines 606-616)

The Python body is:
`if x.startswith("GPAS_SP3"): return x.replace("GPAS_SP3|", "") else: return None`.
`str.replace` removes every occurrence of the pattern by a single
left-to-right non-overlapping scan, which `stripGpasSep` reproduces
(`stripGpasSepAux` carries a fuel argument equal to the input length so
that the recursion is structural). -/

/-- The characters of the tag `"GPAS_SP3"` tested by `startswith`. -/
def gpasTag : List Char := ['G', 'P', 'A', 'S', '_', 'S', 'P', '3']

/-- The characters of the pattern `"GPAS_SP3|"` removed by `replace`. -/
def gpasSep : List Char := ['G', 'P', 'A', 'S', '_', 'S', 'P', '3', '|']

/-- Left-to-right non-overlapping removal of `gpasSep`, fuelled. -/
def stripGpasSepAux : Nat → List Char → List Char
  | _, [] => []
  | 0, l => l
  | fuel + 1, c :: cs =>
    if gpasSep.isPrefixOf (c :: cs) then
      stripGpasSepAux fuel (cs.drop (gpasSep.length - 1))
    else c :: stripGpasSepAux fuel cs

/-- Embeds Python `x.replace("GPAS_SP3|", "")`. -/
def stripGpasSep (l : List Char) : List Char :=
  stripGpasSepAux l.length l

/-- Whether `gpasSep` occurs as a contiguous sublist. -/
def hasGpasSep : List Char → Bool
  | [] => false
  | c :: cs => gpasSep.isPrefixOf (c :: cs) || hasGpasSep cs

/-- Embeds `ObjectStore2FN4.filename2fn4id` (lines 606-616): `None` unless
the argument starts with `"GPAS_SP3"`, otherwise the argument with every
occurrence of `"GPAS_SP3|"` removed.  (Despite its docstring, the Python
body removes nothing after a `.`.) -/
def filename2fn4id (x : String) : Option String :=
  if gpasTag.isPrefixOf x.data then some (String.mk (stripGpasSep x.data))
  else none

/-- Embeds `filename.split(".")[0]` (line 691): the fn4id used by the
candidate-set computation is everything before the first dot. -/
def fn4idOf (filename : String) : String :=
  String.mk ((splitOnChar '.' filename.data).headD [])

/-! ## Content Parser (`SeqIO.parse(f, "fasta")`, lines 769-781)

Biopython's FASTA parsing of a text payload: any text before the first
`>` header line is skipped; each `>` line starts a record whose id is
the first whitespace-delimited token after the `>`, and whose sequence
is the concatenation of the following non-header lines with trailing
whitespace stripped. -/

structure FastaRecord where
  id : String
  seq : String
  deriving Repr, DecidableEq

/-- Whether a line opens a FASTA record (first character is `>`). -/
def isHeaderLine (l : List Char) : Bool :=
  l.headD ' ' == '>'

/-- The record id of a header line: first space-delimited token after `>`. -/
def headerId (l : List Char) : String :=
  String.mk ((splitOnChar ' ' (l.drop 1)).headD [])

/-- Accumulates the record opened by a header with id `i` and sequence
read so far `sq`, then the remaining lines. -/
def fastaFrom (i : String) (sq : List Char) : List (List Char) → List FastaRecord
  | [] => [⟨i, String.mk sq⟩]
  | l :: rest =>
    if isHeaderLine l then ⟨i, String.mk sq⟩ :: fastaFrom (headerId l) [] rest
    else fastaFrom i (sq ++ rstripChars l) rest

/-- Skips any lines before the first header. -/
def fastaSkip : List (List Char) → List FastaRecord
  | [] => []
  | l :: rest => if isHeaderLine l then fastaFrom (headerId l) [] rest else fastaSkip rest

/-- Embeds the record stream `SeqIO.parse(io.StringIO(file_content), "fasta")`. -/
def parseFasta (content : String) : List FastaRecord :=
  fastaSkip (splitOnChar '\n' content.data)

/-! ## Per-record parse loop (lines 746-781)

The Python loop runs over the record stream with a counter `nFiles`
(initial 0) and a result dict whose `parse_status` starts as
`"Failed"`; the first record sets `"Success"` and captures id, length
and sequence; any further record overwrites the status with
`"Failed, multifasta"` while keeping the captured fields. -/

structure ParseState where
  nFiles : Nat
  parse_status : String
  seqid : Option String
  len_seq : Option Nat
  seq : Option String
  deriving Repr, DecidableEq

/-- One iteration of `for record in SeqIO.parse(...)` (lines 771-781). -/
def parseStep (st : ParseState) (r : FastaRecord) : ParseState :=
  let n := st.nFiles + 1
  if n > 1 then { st with nFiles := n, parse_status := "Failed, multifasta" }
  else
    { nFiles := n, parse_status := "Success", seqid := some r.id,
      len_seq := some r.seq.length, seq := some r.seq }

/-- The state after the whole record loop, from the initial dict. -/
def runParse (recs : List FastaRecord) : ParseState :=
  recs.foldl parseStep ⟨0, "Failed", none, none, none⟩

/-! ## Per-item pipeline (`insert_files_into_server` loop body, lines 740-811)

`fetch` stands for `input_ba.load_bucket_into_string` (raises on
failure: `Except.error`), `submit` for the status code of
`self._insert(fn4id, seq)`.  `_getpost` calls `raise_for_status()` when
the code is at least 500, so such a submission raises before the
attempt row is written. -/

/-- One `fn4loadattempt` row, restricted to the claim-relevant columns. -/
structure Res where
  parse_status : String
  seqid : Option String
  file_name : String
  len_seq : Option Nat
  fn4id : Option String
  insert_status_code : Option Nat
  completed : Nat
  batch_sample_number : Nat
  deriving Repr, DecidableEq

/-- Embeds lines 798-803: `move_file = 0`, set to 1 if the parse did not
succeed, set to 1 if the insert status code equals 200. -/
def moveFile (parse_status : String) (insert_status_code : Option Nat) : Nat :=
  let m := 0
  let m := if ¬ (parse_status = "Success") then 1 else m
  let m := if insert_status_code = some 200 then 1 else m
  m

/-- The attempt row written at line 810, assembled from the final field
values of the `res` dict. -/
def finishRes (i : Nat) (file_name : String) (ps : ParseState) (status2 : String)
    (fn4id : Option String) (code : Option Nat) : Res :=
  { parse_status := status2, seqid := ps.seqid, file_name := file_name,
    len_seq := ps.len_seq, fn4id := fn4id, insert_status_code := code,
    completed := moveFile status2 code, batch_sample_number := i }

/-- Embeds one iteration of the candidate loop (lines 740-811): fetch the
bytes (an exception propagates), parse, downgrade a `"Success"` whose
seqid lacks the GPAS tag (lines 783-787), submit when `fn4id` is set
(lines 789-794, raising on a code of 500 or more), and build the
attempt row that is recorded. -/
def processItem (fetch : String → Except String String) (submit : String → String → Nat)
    (i : Nat) (file_name : String) : Except String Res :=
  match fetch file_name with
  | Except.error e => Except.error e
  | Except.ok file_content =>
    let ps := runParse (parseFasta file_content)
    let step2 : String × Option String :=
      if ps.parse_status = "Success" then
        match filename2fn4id (ps.seqid.getD "") with
        | some f => ("Success", some f)
        | none => ("Failed, seqid does not start with GPAS", none)
      else (ps.parse_status, none)
    match step2 with
    | (status2, some f) =>
      let code := submit f (ps.seq.getD "")
      if 500 ≤ code then Except.error "HTTPError"
      else Except.ok (finishRes i file_name ps status2 (some f) (some code))
    | (status2, none) => Except.ok (finishRes i file_name ps status2 none none)

/-! ## Attempt Ledger query and candidate set (lines 689-726)

`list_files` returns `None` when the bucket holds no objects, modelled
as `Option (List String)` over object names.  The completed-attempts
query (lines 710-717) filters `fn4loadattempt` rows on host name and
server url, and then on the Python expression `completed == 1`; at that
point `completed` is the local variable bound to the empty list at line
706, not the table column, so the expression compares a `list` with an
`int`. -/

/-- One pre-existing `fn4loadattempt` row, restricted to the columns the
completed-attempts query touches. -/
structure AttemptRow where
  host_name : String
  findneighbour_server_url : String
  fn4id : Option String
  completed : Nat
  deriving Repr, DecidableEq

/-- The local variable `completed` at line 706: `completed = list()`. -/
def completedLocalInit : List String := []

/-- Python `==` between a `list` value and an `int` value: values of
these two builtin types never compare equal, so the result is `False`
whatever the operands are. -/
def pyEqListNat (_l : List String) (_n : Nat) : Bool := false

/-- Embeds the query of lines 710-717: rows filtered by host name, by
server url, and by the value of the Python expression `completed == 1`
(the local list against the int 1), projected to their `fn4id` column. -/
def completedQuery (ledger : List AttemptRow) (host url : String) : List (Option String) :=
  (((ledger.filter (fun r => r.host_name == host)).filter
      (fun r => r.findneighbour_server_url == url)).filter
      (fun _ => pyEqListNat completedLocalInit 1)).map (fun r => r.fn4id)

/-- The inputs one reconciliation pass reads from its collaborators:
the bucket listing (`None` when empty), the server's guid list, the
pre-existing ledger rows, and the host/server identifiers. -/
structure PassInput where
  listing : Option (List String)
  guids : List String
  ledger : List AttemptRow
  host_name : String
  findneighbour_server_url : String

/-- Embeds lines 689-726: each file's fn4id is the part of its name
before the first dot; `to_add` is the fn4id set minus the server guids
minus the completed set; the candidate files are those whose fn4id is
in `to_add`, in listing order. -/
def candidateFiles (inp : PassInput) (files : List String) : List String :=
  let fn4ids := files.map fn4idOf
  let completedVals := completedQuery inp.ledger inp.host_name inp.findneighbour_server_url
  files.filter (fun f =>
    fn4ids.contains (fn4idOf f) && !(inp.guids.contains (fn4idOf f))
      && !(completedVals.contains (some (fn4idOf f))))

/-! ## Full pass and poll loop (lines 668-812 and 889-894) -/

/-- The `fn4batchload` row written at lines 730-738, restricted to the
claim-relevant columns. -/
structure Checkpoint where
  batch_size : Nat
  number_in_server : Nat
  deriving Repr, DecidableEq

/-- One durable write performed during a pass, in write order. -/
inductive Event where
  | checkpoint (c : Checkpoint)
  | attempt (r : Res)
  deriving Repr, DecidableEq

/-- Whether an event is a `fn4batchload` (checkpoint) write. -/
def isCheckpointEv : Event → Bool
  | Event.checkpoint _ => true
  | _ => false

/-- Whether an event is a `fn4loadattempt` write. -/
def isAttemptEv : Event → Bool
  | Event.attempt _ => true
  | _ => false

/-- Embeds the candidate loop of lines 740-811 from index `i` on: each
item is processed and its attempt row committed before the next starts;
an exception stops the loop at once, keeping the rows already written.
The returned value is the final value of the loop variable `i`, or
`none` when the loop body never ran and `i` was never bound. -/
def processAll (fetch : String → Except String String) (submit : String → String → Nat) :
    Nat → List String → List Event × Except String (Option Nat)
  | _, [] => ([], Except.ok none)
  | i, f :: rest =>
    match processItem fetch submit i f with
    | Except.error e => ([], Except.error e)
    | Except.ok res =>
      let p := processAll fetch submit (i + 1) rest
      (Event.attempt res :: p.1,
        match p.2 with
        | Except.ok none => Except.ok (some i)
        | x => x)

/-- A value the Python function `insert_files_into_server` can return:
both `return` statements (lines 681 and 812) build the dict
`{"added": n}`. -/
inductive PyVal where
  | dictAdded (n : Nat)
  deriving Repr, DecidableEq

/-- Python `==` between the returned dict and an `int` value: a dict
never compares equal to an int, so the result is `False`. -/
def pyEqValNat : PyVal → Nat → Bool
  | PyVal.dictAdded _, _ => false

/-- The message of the `NameError` raised when `return {"added": i}`
(line 812) reads the loop variable of a loop that never ran. -/
def nameErrorMsg : String := "NameError: name i is not defined"

/-- Embeds `insert_files_into_server` (lines 668-812): return
`{"added": 0}` at once when the listing is `None`; otherwise compute
the candidate files, write the one checkpoint row (lines 730-738,
before the candidate loop), run the loop, and return `{"added": i}`
with the final loop index - a `NameError` when no candidate was
iterated.  The first component lists the ledger writes in order. -/
def insert_files_into_server (fetch : String → Except String String)
    (submit : String → String → Nat) (inp : PassInput) :
    List Event × Except String PyVal :=
  match inp.listing with
  | none => ([], Except.ok (PyVal.dictAdded 0))
  | some files =>
    let current := candidateFiles inp files
    let ck : Checkpoint := ⟨current.length, inp.guids.length⟩
    let p := processAll fetch submit 0 current
    (Event.checkpoint ck :: p.1,
      match p.2 with
      | Except.error e => Except.error e
      | Except.ok none => Except.error nameErrorMsg
      | Except.ok (some i) => Except.ok (PyVal.dictAdded i))

/-- Embeds the sleep decision of the `__main__` poll loop (lines
889-894): after `n_inserted = os2fn4.insert_files_into_server()`, the
loop sleeps 180 seconds exactly when `n_inserted == 0` - a Python
comparison between the returned dict and the int 0. -/
def mainLoopSleeps (n_inserted : PyVal) : Bool :=
  pyEqValNat n_inserted 0

/-! ## Spec-side definitions (for comparison with the code)

These two definitions follow the specification's words, not the code:
`ledgerCompletedIds` is §4.4's `completed_identities(target, host)` -
identities with at least one `completed = true` attempt row for this
target/host pair - and `specCandidates` is §4.5's candidate set
`S − R − L`. -/

/-- Modelled from the spec (§4.4): the fn4ids of ledger rows for this
host/server pair whose `completed` column equals 1. -/
def ledgerCompletedIds (ledger : List AttemptRow) (host url : String) : List String :=
  ((ledger.filter (fun r => r.host_name == host && r.findneighbour_server_url == url)).filter
    (fun r => r.completed == 1)).filterMap (fun r => r.fn4id)

/-- Modelled from the spec (§4.5): the candidate identity set `S − R − L`. -/
def specCandidates (S R L : List String) : List String :=
  S.filter (fun x => !(R.contains x) && !(L.contains x))

/-- Whether the last durable write of a pass is the checkpoint row. -/
def checkpointLast (evs : List Event) : Bool :=
  match evs.getLast? with
  | some (Event.checkpoint _) => true
  | _ => false

deriving instance DecidableEq for Except

/-! ## Helper lemmas -/

/-- Characterization of `moveFile` (lines 798-803): it is 1 exactly when
the parse failed or the insert code is 200, and 0 otherwise. -/
theorem moveFile_char (s : String) (c : Option Nat) :
    (moveFile s c = 1 ↔ (s ≠ "Success" ∨ c = some 200))
    ∧ (moveFile s c = 0 ↔ ¬ (s ≠ "Success" ∨ c = some 200)) := by
  unfold moveFile
  by_cases hs : s = "Success" <;> by_cases hc : c = some 200 <;> simp [hs, hc]

/-- The record loop on an empty stream keeps the initial dict. -/
theorem runParse_nil : runParse [] = ⟨0, "Failed", none, none, none⟩ := rfl

/-- The record loop on a single record captures id, length and sequence. -/
theorem runParse_single (r : FastaRecord) :
    runParse [r] = ⟨1, "Success", some r.id, some r.seq.length, some r.seq⟩ := rfl

/-- Once the state shows at least one record seen and a multifasta
status, further records preserve that status. -/
theorem foldl_parseStep_multi (rest : List FastaRecord) :
    ∀ st : ParseState, 1 ≤ st.nFiles → st.parse_status = "Failed, multifasta" →
      (List.foldl parseStep st rest).parse_status = "Failed, multifasta" := by
  induction rest with
  | nil => intro st _ h2; simpa using h2
  | cons r rs ih =>
    intro st h1 h2
    have hgt : st.nFiles + 1 > 1 := by omega
    have hstep : parseStep st r
        = { st with nFiles := st.nFiles + 1, parse_status := "Failed, multifasta" } := by
      unfold parseStep
      simp [hgt]
    simp only [List.foldl]
    rw [hstep]
    exact ih _ (by simp) rfl

/-- Two or more records leave the loop in the multifasta-failure state. -/
theorem runParse_multi (r1 r2 : FastaRecord) (rest : List FastaRecord) :
    (runParse (r1 :: r2 :: rest)).parse_status = "Failed, multifasta" := by
  unfold runParse
  simp only [List.foldl]
  have h2 : parseStep (parseStep ⟨0, "Failed", none, none, none⟩ r1) r2
      = ⟨2, "Failed, multifasta", some r1.id, some r1.seq.length, some r1.seq⟩ := rfl
  rw [h2]
  exact foldl_parseStep_multi rest _ (by simp) rfl

/-- A record stream of length at least two ends in the multifasta state. -/
theorem runParse_status_of_two_le (l : List FastaRecord) (h : 2 ≤ l.length) :
    (runParse l).parse_status = "Failed, multifasta" := by
  cases l with
  | nil => simp at h
  | cons r1 tail =>
    cases tail with
    | nil => simp at h
    | cons r2 rest => exact runParse_multi r1 r2 rest

/-- A fetch exception propagates out of the loop body unchanged. -/
theorem processItem_fetch_error (fetch : String → Except String String)
    (submit : String → String → Nat) (i : Nat) (fname e : String)
    (hf : fetch fname = Except.error e) :
    processItem fetch submit i fname = Except.error e := by
  unfold processItem
  rw [hf]

/-- When the parse does not succeed, the item is recorded unsubmitted. -/
theorem processItem_not_success (fetch : String → Except String String)
    (submit : String → String → Nat) (i : Nat) (fname content : String)
    (hf : fetch fname = Except.ok content)
    (hs : ¬ (runParse (parseFasta content)).parse_status = "Success") :
    processItem fetch submit i fname
      = Except.ok (finishRes i fname (runParse (parseFasta content))
          (runParse (parseFasta content)).parse_status none none) := by
  unfold processItem
  simp only [hf]
  rw [if_neg hs]

/-- When the parse succeeds but the seqid lacks the GPAS tag, the status
is downgraded and the item is recorded unsubmitted. -/
theorem processItem_downgrade (fetch : String → Except String String)
    (submit : String → String → Nat) (i : Nat) (fname content : String)
    (hf : fetch fname = Except.ok content)
    (hs : (runParse (parseFasta content)).parse_status = "Success")
    (hid : filename2fn4id ((runParse (parseFasta content)).seqid.getD "") = none) :
    processItem fetch submit i fname
      = Except.ok (finishRes i fname (runParse (parseFasta content))
          "Failed, seqid does not start with GPAS" none none) := by
  unfold processItem
  simp only [hf]
  rw [if_pos hs, hid]

/-- When the parse succeeds, the seqid carries the GPAS tag, and the
submission code is below 500, the item is recorded with that code. -/
theorem processItem_submit (fetch : String → Except String String)
    (submit : String → String → Nat) (i : Nat) (fname content f : String)
    (hf : fetch fname = Except.ok content)
    (hs : (runParse (parseFasta content)).parse_status = "Success")
    (hid : filename2fn4id ((runParse (parseFasta content)).seqid.getD "") = some f)
    (hlt : ¬ 500 ≤ submit f ((runParse (parseFasta content)).seq.getD "")) :
    processItem fetch submit i fname
      = Except.ok (finishRes i fname (runParse (parseFasta content)) "Success" (some f)
          (some (submit f ((runParse (parseFasta content)).seq.getD "")))) := by
  unfold processItem
  simp only [hf]
  rw [if_pos hs, hid]
  simp only []
  rw [if_neg hlt]

/-- A submission code of 500 or more raises before the row is written. -/
theorem processItem_submit_fault (fetch : String → Except String String)
    (submit : String → String → Nat) (i : Nat) (fname content f : String)
    (hf : fetch fname = Except.ok content)
    (hs : (runParse (parseFasta content)).parse_status = "Success")
    (hid : filename2fn4id ((runParse (parseFasta content)).seqid.getD "") = some f)
    (hge : 500 ≤ submit f ((runParse (parseFasta content)).seq.getD "")) :
    processItem fetch submit i fname = Except.error "HTTPError" := by
  unfold processItem
  simp only [hf]
  rw [if_pos hs, hid]
  simp only []
  rw [if_pos hge]

/-- Every successful `processItem` result is a `finishRes` row: either a
submitted one (status `"Success"`, a code below 500) or an unsubmitted
one (status other than `"Success"`, no fn4id, no code). -/
theorem processItem_ok_cases (fetch : String → Except String String)
    (submit : String → String → Nat) (i : Nat) (fname : String) (res : Res)
    (h : processItem fetch submit i fname = Except.ok res) :
    (∃ content f c, fetch fname = Except.ok content ∧ c < 500 ∧
      res = finishRes i fname (runParse (parseFasta content)) "Success" (some f) (some c))
    ∨ (∃ content status2, fetch fname = Except.ok content ∧ status2 ≠ "Success" ∧
      res = finishRes i fname (runParse (parseFasta content)) status2 none none) := by
  cases hfe : fetch fname with
  | error e =>
    rw [processItem_fetch_error fetch submit i fname e hfe] at h
    exact absurd h (by simp)
  | ok content =>
    by_cases hs : (runParse (parseFasta content)).parse_status = "Success"
    · cases hid : filename2fn4id ((runParse (parseFasta content)).seqid.getD "") with
      | none =>
        rw [processItem_downgrade fetch submit i fname content hfe hs hid] at h
        injection h with h
        exact Or.inr ⟨content, _, rfl, by decide, h.symm⟩
      | some f =>
        by_cases hlt : 500 ≤ submit f ((runParse (parseFasta content)).seq.getD "")
        · rw [processItem_submit_fault fetch submit i fname content f hfe hs hid hlt] at h
          exact absurd h (by simp)
        · rw [processItem_submit fetch submit i fname content f hfe hs hid hlt] at h
          injection h with h
          exact Or.inl ⟨content, f, _, rfl, by omega, h.symm⟩
    · rw [processItem_not_success fetch submit i fname content hfe hs] at h
      injection h with h
      exact Or.inr ⟨content, _, rfl, hs, h.symm⟩

/-- With enough fuel, a list without an occurrence of the pattern is
returned unchanged. -/
theorem stripGpasSepAux_no_occ : ∀ (fuel : Nat) (l : List Char), l.length ≤ fuel →
    hasGpasSep l = false → stripGpasSepAux fuel l = l := by
  intro fuel
  induction fuel with
  | zero =>
    intro l hl _
    have : l = [] := List.eq_nil_of_length_eq_zero (Nat.le_zero.mp hl)
    rw [this]
    rfl
  | succ n ih =>
    intro l hl hocc
    cases l with
    | nil => rfl
    | cons c cs =>
      unfold hasGpasSep at hocc
      rw [Bool.or_eq_false_iff] at hocc
      obtain ⟨h1, h2⟩ := hocc
      unfold stripGpasSepAux
      rw [h1]
      simp only [Bool.false_eq_true, if_false]
      have hcs : cs.length ≤ n := by
        simp only [List.length_cons] at hl
        omega
      rw [ih cs hcs h2]

/-- One removal step at the head, with enough fuel for the remainder. -/
theorem stripGpasSepAux_strip (fuel : Nat) (s : List Char) (hf : s.length ≤ fuel)
    (h : hasGpasSep s = false) :
    stripGpasSepAux (fuel + 1) (gpasSep ++ s) = s := by
  have hpre : gpasSep.isPrefixOf ('G' :: (['P', 'A', 'S', '_', 'S', 'P', '3', '|'] ++ s)) = true :=
    List.isPrefixOf_iff_prefix.mpr (List.prefix_append _ _)
  show stripGpasSepAux (fuel + 1) ('G' :: (['P', 'A', 'S', '_', 'S', 'P', '3', '|'] ++ s)) = s
  unfold stripGpasSepAux
  rw [hpre]
  simp only [if_true]
  rw [show gpasSep.length - 1 = (['P', 'A', 'S', '_', 'S', 'P', '3', '|'] : List Char).length from rfl]
  rw [List.drop_left]
  exact stripGpasSepAux_no_occ fuel s hf h

/-- Replacing the pattern in a name made of the pattern followed by a
pattern-free remainder returns the remainder. -/
theorem stripGpasSep_strip (s : List Char) (h : hasGpasSep s = false) :
    stripGpasSep (gpasSep ++ s) = s := by
  unfold stripGpasSep
  rw [show (gpasSep ++ s).length = (8 + s.length) + 1 from by
    simp [gpasSep, List.length_append]
    omega]
  exact stripGpasSepAux_strip (8 + s.length) s (by omega) h

/-- The candidate loop writes attempt rows only, never a checkpoint. -/
theorem processAll_no_checkpoint (fetch : String → Except String String)
    (submit : String → String → Nat) :
    ∀ (l : List String) (i : Nat),
      (processAll fetch submit i l).1.filter isCheckpointEv = [] := by
  intro l
  induction l with
  | nil => intro i; rfl
  | cons f rest ih =>
    intro i
    unfold processAll
    cases hp : processItem fetch submit i f with
    | error e => simp
    | ok res => simp [isCheckpointEv, ih]

/-! ## Claims -/

/-- Claim C1 (code bug): the claim states that the candidate set equals
`S − R − L`, every identity with a completed attempt being excluded.
The code never excludes `L`: the query of lines 710-717 filters on the
Python expression `completed == 1` where `completed` is the local empty
list bound at line 706, so the comparison is between a list and an int
and the query returns no rows whatever the ledger holds (first
conjunct).  At the concrete failing input - one ledger row with
`completed = 1` for fn4id `"GPAS_SP3|A"`, that same identity listed at
the source and absent from the server - the code still selects the file
as a candidate, while the claimed `S − R − L` is empty. -/
theorem C1_completed_not_excluded :
    (∀ (ledger : List AttemptRow) (host url : String), completedQuery ledger host url = [])
    ∧ candidateFiles
        ⟨some ["GPAS_SP3|A.fasta"], [], [⟨"h1", "u1", some "GPAS_SP3|A", 1⟩], "h1", "u1"⟩
        ["GPAS_SP3|A.fasta"] = ["GPAS_SP3|A.fasta"]
    ∧ ledgerCompletedIds [⟨"h1", "u1", some "GPAS_SP3|A", 1⟩] "h1" "u1" = ["GPAS_SP3|A"]
    ∧ specCandidates (["GPAS_SP3|A.fasta"].map fn4idOf) []
        (ledgerCompletedIds [⟨"h1", "u1", some "GPAS_SP3|A", 1⟩] "h1" "u1") = [] := by
  refine ⟨?_, by decide, by decide, by decide⟩
  intro ledger host url
  simp [completedQuery, pyEqListNat]

/-- Claim C2 (counterexample): an item whose payload parses to one
record whose embedded id (`"GPAS_SP3|BBB"`) differs both from the
identity `filename2fn4id` derives from the file name (`"AAA.fasta"`)
and from the dot-split fn4id of the file name (`"GPAS_SP3|AAA"`) is
nevertheless submitted (its row records insert status 200), because the
code only checks that the embedded id itself carries the GPAS tag and
never compares it with a filename-derived identity. -/
theorem C2_mismatch_submitted :
    processItem (fun _ => Except.ok ">GPAS_SP3|BBB\nACGT") (fun _ _ => 200) 0 "GPAS_SP3|AAA.fasta"
      = Except.ok { parse_status := "Success", seqid := some "GPAS_SP3|BBB",
                    file_name := "GPAS_SP3|AAA.fasta", len_seq := some 4, fn4id := some "BBB",
                    insert_status_code := some 200, completed := 1, batch_sample_number := 0 }
    ∧ filename2fn4id "GPAS_SP3|AAA.fasta" = some "AAA.fasta"
    ∧ fn4idOf "GPAS_SP3|AAA.fasta" = "GPAS_SP3|AAA"
    ∧ ("GPAS_SP3|BBB" : String) ≠ "AAA.fasta"
    ∧ ("GPAS_SP3|BBB" : String) ≠ "GPAS_SP3|AAA" :=
  ⟨rfl, rfl, rfl, by decide, by decide⟩

/-- Claim C2 (amended): for an item whose payload parses to exactly one
record, the embedded record id itself is passed through the prefix
extractor; when it lacks the GPAS tag, `parse_status` is downgraded to
the distinct failure `"Failed, seqid does not start with GPAS"`,
submission is skipped (no fn4id, no insert status code), and the
attempt is recorded with `completed = 1`. -/
theorem C2_amended_prefix_check (fetch : String → Except String String)
    (submit : String → String → Nat) (i : Nat) (fname content : String) (r : FastaRecord)
    (hf : fetch fname = Except.ok content)
    (hp : parseFasta content = [r])
    (hid : filename2fn4id r.id = none) :
    processItem fetch submit i fname
      = Except.ok { parse_status := "Failed, seqid does not start with GPAS", seqid := some r.id,
                    file_name := fname, len_seq := some r.seq.length, fn4id := none,
                    insert_status_code := none, completed := 1, batch_sample_number := i } := by
  have hrp : runParse (parseFasta content)
      = ⟨1, "Success", some r.id, some r.seq.length, some r.seq⟩ := by
    rw [hp, runParse_single]
  have hs : (runParse (parseFasta content)).parse_status = "Success" := by rw [hrp]
  have hid2 : filename2fn4id ((runParse (parseFasta content)).seqid.getD "") = none := by
    rw [hrp]
    simpa using hid
  rw [processItem_downgrade fetch submit i fname content hf hs hid2, hrp]
  rfl

/-- Claim C2 (witness): a concrete single-record payload whose embedded
id lacks the GPAS tag is downgraded, unsubmitted and completed. -/
theorem C2_amended_witness :
    processItem (fun _ => Except.ok ">nogpas\nACGT") (fun _ _ => 200) 0 "f.fasta"
      = Except.ok { parse_status := "Failed, seqid does not start with GPAS", seqid := some "nogpas",
                    file_name := "f.fasta", len_seq := some 4, fn4id := none,
                    insert_status_code := none, completed := 1, batch_sample_number := 0 } :=
  C2_amended_prefix_check (fun _ => Except.ok ">nogpas\nACGT") (fun _ _ => 200) 0 "f.fasta"
    ">nogpas\nACGT" ⟨"nogpas", "ACGT"⟩ rfl (by decide) rfl

/-- Claim C3 (counterexample): a parse-Success item whose submission
returns 404 - a client-error code below 500 and different from 200 - is
recorded with `completed = 0`, not `completed = true` as the claim
states, so it is re-selected on later passes rather than terminal. -/
theorem C3_client_error_not_completed :
    processItem (fun _ => Except.ok ">GPAS_SP3|A\nACGT") (fun _ _ => 404) 0 "GPAS_SP3|A.fasta"
      = Except.ok { parse_status := "Success", seqid := some "GPAS_SP3|A",
                    file_name := "GPAS_SP3|A.fasta", len_seq := some 4, fn4id := some "A",
                    insert_status_code := some 404, completed := 0, batch_sample_number := 0 }
    ∧ (404 : Nat) < 500 ∧ (404 : Nat) ≠ 200 :=
  ⟨rfl, by decide, by decide⟩

/-- Claim C3 (amended): a recorded attempt whose parse succeeded and
whose insert status code is not 200 has `completed = 0` (it stays
eligible for retry), and that code is necessarily below 500 (codes of
500 or more raise before the row is written). -/
theorem C3_amended_retryable (fetch : String → Except String String)
    (submit : String → String → Nat) (i : Nat) (fname : String) (res : Res)
    (h : processItem fetch submit i fname = Except.ok res)
    (hs : res.parse_status = "Success")
    (hne : res.insert_status_code ≠ some 200) :
    res.completed = 0 ∧ ∃ c, res.insert_status_code = some c ∧ c < 500 := by
  rcases processItem_ok_cases fetch submit i fname res h with
    ⟨content, f, c, _, hlt, hres⟩ | ⟨content, status2, _, hst, hres⟩
  · subst hres
    have hc : (some c : Option Nat) ≠ some 200 := by simpa [finishRes] using hne
    refine ⟨?_, c, rfl, hlt⟩
    simp only [finishRes]
    exact (moveFile_char "Success" (some c)).2.mpr (by simp [hc])
  · subst hres
    simp only [finishRes] at hs
    exact absurd hs hst

/-- Claim C3 (witness): the 404 attempt row satisfies the amended claim. -/
theorem C3_amended_witness :
    ({ parse_status := "Success", seqid := some "GPAS_SP3|A", file_name := "GPAS_SP3|A.fasta",
       len_seq := some 4, fn4id := some "A", insert_status_code := some 404, completed := 0,
       batch_sample_number := 0 : Res }.completed = 0)
    ∧ ∃ c, ({ parse_status := "Success", seqid := some "GPAS_SP3|A",
              file_name := "GPAS_SP3|A.fasta", len_seq := some 4, fn4id := some "A",
              insert_status_code := some 404, completed := 0,
              batch_sample_number := 0 : Res }.insert_status_code = some c) ∧ c < 500 :=
  C3_amended_retryable (fun _ => Except.ok ">GPAS_SP3|A\nACGT") (fun _ _ => 404) 0
    "GPAS_SP3|A.fasta"
    { parse_status := "Success", seqid := some "GPAS_SP3|A", file_name := "GPAS_SP3|A.fasta",
      len_seq := some 4, fn4id := some "A", insert_status_code := some 404, completed := 0,
      batch_sample_number := 0 } rfl rfl (by decide)

/-- Claim C4 (confirmed): for every item that reaches the recording step
(the loop body returns a row rather than raising), the row's
`completed` flag is 1 exactly when the parse status is not `"Success"`
or the insert status code is 200, and 0 otherwise. -/
theorem C4_completed_iff (fetch : String → Except String String)
    (submit : String → String → Nat) (i : Nat) (fname : String) (res : Res)
    (h : processItem fetch submit i fname = Except.ok res) :
    (res.completed = 1 ↔ (res.parse_status ≠ "Success" ∨ res.insert_status_code = some 200))
    ∧ (res.completed = 0 ↔ ¬ (res.parse_status ≠ "Success" ∨ res.insert_status_code = some 200)) := by
  rcases processItem_ok_cases fetch submit i fname res h with
    ⟨content, f, c, _, _, hres⟩ | ⟨content, status2, _, _, hres⟩ <;>
    · subst hres
      simp only [finishRes]
      exact moveFile_char _ _

/-- Claim C4 (witness): the iff holds at a concrete accepted attempt. -/
theorem C4_witness :
    ({ parse_status := "Success", seqid := some "GPAS_SP3|A", file_name := "GPAS_SP3|A.fasta",
       len_seq := some 4, fn4id := some "A", insert_status_code := some 200, completed := 1,
       batch_sample_number := 0 : Res }.completed = 1
      ↔ (({ parse_status := "Success", seqid := some "GPAS_SP3|A", file_name := "GPAS_SP3|A.fasta",
            len_seq := some 4, fn4id := some "A", insert_status_code := some 200, completed := 1,
            batch_sample_number := 0 : Res }.parse_status ≠ "Success")
          ∨ ({ parse_status := "Success", seqid := some "GPAS_SP3|A", file_name := "GPAS_SP3|A.fasta",
               len_seq := some 4, fn4id := some "A", insert_status_code := some 200, completed := 1,
               batch_sample_number := 0 : Res }.insert_status_code = some 200))) :=
  (C4_completed_iff (fun _ => Except.ok ">GPAS_SP3|A\nACGT") (fun _ _ => 200) 0 "GPAS_SP3|A.fasta"
    { parse_status := "Success", seqid := some "GPAS_SP3|A", file_name := "GPAS_SP3|A.fasta",
      len_seq := some 4, fn4id := some "A", insert_status_code := some 200, completed := 1,
      batch_sample_number := 0 } rfl).1

/-- Claim C5 (code bug): the claim states that after an empty pass the
poll loop sleeps for the idle interval.  The function returns the dict
`{"added": n}`, and the loop guard compares that dict with the int 0 -
false in Python for every possible return value - so the loop never
sleeps: at the empty-source input the pass returns `{"added": 0}` and
the sleep predicate is false, as it is for every returned value. -/
theorem C5_loop_never_sleeps :
    insert_files_into_server (fun _ => Except.error "unused") (fun _ _ => 200)
        ⟨none, [], [], "h", "u"⟩
      = ([], Except.ok (PyVal.dictAdded 0))
    ∧ (∀ v : PyVal, mainLoopSleeps v = false) := by
  refine ⟨rfl, ?_⟩
  intro v
  cases v
  rfl

/-- Claim C6 (counterexample): with two candidates whose fetch fails,
the pass aborts with the propagated error after writing only the
checkpoint - no failed attempt row is recorded for the faulting item
and the second candidate is never processed, contradicting the claim
that a per-item fetch fault is caught, recorded, and skipped over. -/
theorem C6_fetch_fault_aborts_pass :
    insert_files_into_server (fun _ => Except.error "ServiceError") (fun _ _ => 200)
        ⟨some ["GPAS_SP3|A.fasta", "GPAS_SP3|B.fasta"], [], [], "h", "u"⟩
      = ([Event.checkpoint ⟨2, 0⟩], Except.error "ServiceError")
    ∧ ([Event.checkpoint ⟨2, 0⟩].filter isAttemptEv).length = 0 :=
  ⟨by decide, by decide⟩

/-- Claim C6 (amended): a raw-byte fetch fault is not caught: when the
first candidate's fetch raises, the exception propagates out of
`insert_files_into_server`, the pass ends with only the checkpoint
written, and no attempt row exists for any candidate. -/
theorem C6_amended_fault_propagates (fetch : String → Except String String)
    (submit : String → String → Nat) (inp : PassInput) (files : List String)
    (f : String) (rest : List String) (e : String)
    (hl : inp.listing = some files)
    (hc : candidateFiles inp files = f :: rest)
    (hf : fetch f = Except.error e) :
    insert_files_into_server fetch submit inp
      = ([Event.checkpoint ⟨(f :: rest).length, inp.guids.length⟩], Except.error e) := by
  simp only [insert_files_into_server, hl, hc]
  simp [processAll, processItem_fetch_error fetch submit 0 f e hf]

/-- Claim C6 (witness): a concrete faulting fetch aborts the pass. -/
theorem C6_amended_witness :
    insert_files_into_server (fun _ => Except.error "ServiceError") (fun _ _ => 200)
        ⟨some ["GPAS_SP3|C.fasta"], [], [], "h", "u"⟩
      = ([Event.checkpoint ⟨1, 0⟩], Except.error "ServiceError") :=
  C6_amended_fault_propagates (fun _ => Except.error "ServiceError") (fun _ _ => 200)
    ⟨some ["GPAS_SP3|C.fasta"], [], [], "h", "u"⟩ ["GPAS_SP3|C.fasta"]
    "GPAS_SP3|C.fasta" [] "ServiceError" rfl (by decide) rfl

/-- Claim C7 (counterexample): the claim states the extractor also
removes any trailing qualifier starting at the first dot, which would
map `"GPAS_SP3|ABC.fasta"` to `"ABC"`; the code keeps the qualifier and
returns `"ABC.fasta"`. -/
theorem C7_qualifier_not_removed :
    filename2fn4id "GPAS_SP3|ABC.fasta" = some "ABC.fasta"
    ∧ some ("ABC.fasta" : String) ≠ some ("ABC" : String) :=
  ⟨rfl, by decide⟩

/-- Claim C7 (amended): the extractor is total (never raises): for a
name made of the tag-and-separator followed by a remainder in which the
pattern does not occur again, it returns exactly that remainder - the
trailing dot-qualifier is kept - and for a name not starting with the
tag it returns the no-identity signal `none`. -/
theorem C7_tag_stripped_qualifier_kept :
    (∀ (x : String) (s : List Char), x.data = gpasSep ++ s → hasGpasSep s = false →
      filename2fn4id x = some (String.mk s))
    ∧ (∀ x : String, gpasTag.isPrefixOf x.data = false → filename2fn4id x = none) := by
  constructor
  · intro x s hx hs
    unfold filename2fn4id
    have hpre : gpasTag.isPrefixOf x.data = true := by
      rw [hx]
      rw [show gpasSep ++ s = gpasTag ++ ('|' :: s) from rfl]
      exact List.isPrefixOf_iff_prefix.mpr (List.prefix_append _ _)
    rw [hpre]
    simp only [if_true]
    rw [hx, stripGpasSep_strip s hs]
  · intro x h
    unfold filename2fn4id
    rw [h]
    simp

/-- Claim C7 (witness): the spec's own vectors - a tagged name has its
tag stripped and qualifier kept, an untagged name yields no identity. -/
theorem C7_witness :
    filename2fn4id "GPAS_SP3|AB.fasta" = some (String.mk "AB.fasta".data)
    ∧ filename2fn4id "other.fasta" = none :=
  ⟨(C7_tag_stripped_qualifier_kept).1 "GPAS_SP3|AB.fasta" "AB.fasta".data (by decide) (by decide),
   (C7_tag_stripped_qualifier_kept).2 "other.fasta" (by decide)⟩

/-- Claim C8 (confirmed): the parser classifies deterministically and
totally: zero records keep the distinct initial status `"Failed"` (the
empty classification), exactly one record yields `"Success"` with the
record's id and sequence length captured, two or more records yield the
distinct status `"Failed, multifasta"`, the three statuses are pairwise
distinct, and a multi-record item is recorded with no insert status
code and no fn4id - it is never submitted. -/
theorem C8_classification (content : String) :
    (parseFasta content = [] → runParse (parseFasta content) = ⟨0, "Failed", none, none, none⟩)
    ∧ (∀ r : FastaRecord, parseFasta content = [r] →
        runParse (parseFasta content) = ⟨1, "Success", some r.id, some r.seq.length, some r.seq⟩)
    ∧ (2 ≤ (parseFasta content).length →
        (runParse (parseFasta content)).parse_status = "Failed, multifasta")
    ∧ (("Failed" : String) ≠ "Success" ∧ ("Failed" : String) ≠ "Failed, multifasta"
        ∧ ("Failed, multifasta" : String) ≠ "Success")
    ∧ (∀ (fetch : String → Except String String) (submit : String → String → Nat)
        (i : Nat) (fname : String) (res : Res),
        fetch fname = Except.ok content → 2 ≤ (parseFasta content).length →
        processItem fetch submit i fname = Except.ok res →
        res.insert_status_code = none ∧ res.fn4id = none) := by
  refine ⟨?_, ?_, ?_, ⟨by decide, by decide, by decide⟩, ?_⟩
  · intro h
    rw [h]
    exact runParse_nil
  · intro r h
    rw [h, runParse_single]
  · intro hlen
    exact runParse_status_of_two_le _ hlen
  · intro fetch submit i fname res hf hlen h
    have hs : ¬ (runParse (parseFasta content)).parse_status = "Success" := by
      rw [runParse_status_of_two_le _ hlen]
      decide
    rw [processItem_not_success fetch submit i fname content hf hs] at h
    injection h with h
    rw [← h]
    exact ⟨rfl, rfl⟩

/-- Claim C8 (witness): concrete payloads - empty, two-record, and one
record of length 4 - receive their classifications. -/
theorem C8_witness :
    runParse (parseFasta "") = ⟨0, "Failed", none, none, none⟩
    ∧ (runParse (parseFasta ">a\nAC\n>b\nGG")).parse_status = "Failed, multifasta"
    ∧ runParse (parseFasta ">GPAS_SP3|x\nACGT")
        = ⟨1, "Success", some "GPAS_SP3|x", some 4, some "ACGT"⟩ :=
  ⟨(C8_classification "").1 (by decide),
   (C8_classification ">a\nAC\n>b\nGG").2.2.1 (by decide),
   (C8_classification ">GPAS_SP3|x\nACGT").2.1 ⟨"GPAS_SP3|x", "ACGT"⟩ (by decide)⟩

/-- Claim C9 (counterexample): in a concrete pass with one candidate the
write trace is checkpoint first, then the attempt row - the checkpoint
is not written after the per-item records as the claim states. -/
theorem C9_checkpoint_written_first :
    (insert_files_into_server (fun _ => Except.ok ">GPAS_SP3|A\nACGT") (fun _ _ => 200)
        ⟨some ["GPAS_SP3|A.fasta"], [], [], "h", "u"⟩).1
      = [Event.checkpoint ⟨1, 0⟩,
         Event.attempt { parse_status := "Success", seqid := some "GPAS_SP3|A",
                         file_name := "GPAS_SP3|A.fasta", len_seq := some 4, fn4id := some "A",
                         insert_status_code := some 200, completed := 1, batch_sample_number := 0 }]
    ∧ checkpointLast (insert_files_into_server (fun _ => Except.ok ">GPAS_SP3|A\nACGT")
        (fun _ _ => 200) ⟨some ["GPAS_SP3|A.fasta"], [], [], "h", "u"⟩).1 = false :=
  ⟨by decide, by decide⟩

/-- Claim C9 (amended): when the listing is non-empty, exactly one
checkpoint row is written per pass and it is the first write, before
any per-item attempt row, with `batch_size` the number of candidate
files and `number_in_server` the size of the server's guid list; a pass
whose listing is empty writes nothing at all. -/
theorem C9_amended_one_checkpoint (fetch : String → Except String String)
    (submit : String → String → Nat) (inp : PassInput) (files : List String)
    (hl : inp.listing = some files) :
    (insert_files_into_server fetch submit inp).1.head?
        = some (Event.checkpoint ⟨(candidateFiles inp files).length, inp.guids.length⟩)
    ∧ ((insert_files_into_server fetch submit inp).1.filter isCheckpointEv).length = 1
    ∧ (∀ inp2 : PassInput, inp2.listing = none →
        (insert_files_into_server fetch submit inp2).1 = []) := by
  refine ⟨?_, ?_, ?_⟩
  · simp only [insert_files_into_server, hl]
    rfl
  · simp only [insert_files_into_server, hl]
    simp [isCheckpointEv, processAll_no_checkpoint]
  · intro inp2 h2
    simp [insert_files_into_server, h2]

/-- Claim C9 (witness): the concrete one-candidate pass opens with its
checkpoint row. -/
theorem C9_amended_witness :
    (insert_files_into_server (fun _ => Except.ok ">GPAS_SP3|D\nAC") (fun _ _ => 200)
        ⟨some ["GPAS_SP3|D.fasta"], [], [], "h", "u"⟩).1.head?
      = some (Event.checkpoint ⟨1, 0⟩) :=
  (C9_amended_one_checkpoint (fun _ => Except.ok ">GPAS_SP3|D\nAC") (fun _ _ => 200)
    ⟨some ["GPAS_SP3|D.fasta"], [], [], "h", "u"⟩ ["GPAS_SP3|D.fasta"] rfl).1

/-- Claim C10 (confirmed): when the source listing is non-empty but the
computed candidate set is empty, the pass ends in the `NameError`
raised by `return {"added": i}` (line 812), because the loop variable
was never bound. -/
theorem C10_empty_candidates_nameerror (fetch : String → Except String String)
    (submit : String → String → Nat) (inp : PassInput) (files : List String)
    (hl : inp.listing = some files) (_hne : files ≠ [])
    (hc : candidateFiles inp files = []) :
    (insert_files_into_server fetch submit inp).2 = Except.error nameErrorMsg := by
  simp [insert_files_into_server, hl, hc, processAll]

/-- Claim C10 (witness): a listing whose only identity is already on
the server yields the `NameError`. -/
theorem C10_witness :
    (insert_files_into_server (fun _ => Except.error "unused") (fun _ _ => 200)
        ⟨some ["GPAS_SP3|A.fasta"], ["GPAS_SP3|A"], [], "h", "u"⟩).2
      = Except.error nameErrorMsg :=
  C10_empty_candidates_nameerror (fun _ => Except.error "unused") (fun _ _ => 200)
    ⟨some ["GPAS_SP3|A.fasta"], ["GPAS_SP3|A"], [], "h", "u"⟩ ["GPAS_SP3|A.fasta"]
    rfl (by decide) (by decide)

end GpasFasta


